import Mathlib

/-!
Shallow embedding of the easyenv environment-variable accessor library
(src/lib.rs, src/internal.rs, src/boolean.rs, src/duration.rs,
src/pathbuf.rs, src/string.rs, src/num.rs) together with theorems
checking the natural-language specification against it.

The environment store is modelled as a partial map from variable names to
raw values; a raw value is either valid unicode text or non-unicode bytes
(the two shapes std::env::var distinguishes).  Every accessor is embedded
as a pure function from the store to its result paired with the trace of
store operations it performs (lookups, parse attempts, writes), so that
frame properties (no mutation, exactly one lookup) are statable.
-/

namespace EasyEnv

/-- Raw value of an environment-store entry: valid unicode text, or raw
bytes that are not valid unicode. -/
inductive RawValue
  | text (s : String)
  | nonUnicode
deriving DecidableEq

/-- The process environment store: a partial map from variable names to
raw values. -/
def Env : Type := String → Option RawValue

/-- Result of the raw lookup, mirroring std::env::VarError. -/
inductive VarError
  | notPresent
  | notUnicode
deriving DecidableEq

/-- The EnvError enum of src/lib.rs.  The revision in src/boolean.rs also
refers to a NotUnicode variant, so the embedding carries all three. -/
inductive EnvError
  | ParseError (reason : String)
  | RequiredNotPresent
  | NotUnicode
deriving DecidableEq

/-- An operation performed against the environment store or on a value
read from it. -/
inductive EnvOp
  | lookup (name : String)
  | parseAttempt (raw : String)
  | write (name : String) (value : String)
deriving DecidableEq

/-- std::env::var: one lookup, distinguishing an absent entry from a
present but non-unicode one. -/
def env_var (env : Env) (name : String) : Except VarError String × List EnvOp :=
  (match env name with
   | none => Except.error VarError.notPresent
   | some (RawValue.text s) => Except.ok s
   | some RawValue.nonUnicode => Except.error VarError.notUnicode,
   [EnvOp.lookup name])

/-- Replay the mutations of a trace against a store.  Only write
operations (std::env::set_var, which stores unicode text) change it. -/
def applyOps (env : Env) : List EnvOp → Env
  | [] => env
  | EnvOp.lookup _ :: rest => applyOps env rest
  | EnvOp.parseAttempt _ :: rest => applyOps env rest
  | EnvOp.write name value :: rest =>
      applyOps (fun n => if n = name then some (RawValue.text value) else env n) rest

/-- Number of store lookups in a trace. -/
def countLookups (t : List EnvOp) : Nat :=
  t.countP (fun op => match op with | EnvOp.lookup _ => true | _ => false)

/-- Number of parse attempts in a trace. -/
def countParses (t : List EnvOp) : Nat :=
  t.countP (fun op => match op with | EnvOp.parseAttempt _ => true | _ => false)

/-- Number of store writes in a trace. -/
def countWrites (t : List EnvOp) : Nat :=
  t.countP (fun op => match op with | EnvOp.write _ _ => true | _ => false)

/-- A trace that leaves the given store unchanged, contains exactly one
lookup, at most one parse attempt and no write. -/
def pureAccessorTrace (env : Env) (t : List EnvOp) : Prop :=
  applyOps env t = env ∧ countLookups t = 1 ∧ countParses t ≤ 1 ∧ countWrites t = 0

/-! ### src/internal.rs and the boolean accessors of src/lib.rs -/

/-- src/internal.rs get_env_bool_internal: env::var collapsed through
.ok(), so a non-unicode value is treated like an absent one. -/
def get_env_bool_internal (env : Env) (env_name : String) :
    Except EnvError (Option Bool) × List EnvOp :=
  let p := env_var env env_name
  match p.1.toOption with
  | none => (Except.ok none, p.2)
  | some val =>
      (if val = "TRUE" then Except.ok (some true)
       else if val = "true" then Except.ok (some true)
       else if val = "FALSE" then Except.ok (some false)
       else if val = "false" then Except.ok (some false)
       else Except.error (EnvError.ParseError ("Couldn\x27t parse as bool: \x27" ++ val ++ "\x27")),
       p.2 ++ [EnvOp.parseAttempt val])

/-- src/lib.rs get_env_bool_optional: its own lookup through .ok(),
matching the four case-sensitive literals. -/
def get_env_bool_optional (env : Env) (env_name : String) :
    Option Bool × List EnvOp :=
  let p := env_var env env_name
  match p.1.toOption with
  | none => (none, p.2)
  | some val =>
      (if val = "TRUE" then some true
       else if val = "true" then some true
       else if val = "FALSE" then some false
       else if val = "false" then some false
       else none,
       p.2 ++ [EnvOp.parseAttempt val])

/-- src/lib.rs get_env_bool_or_default: map over the internal result,
falling back to the default on absence and on any error. -/
def get_env_bool_or_default (env : Env) (env_name : String) (default : Bool) :
    Bool × List EnvOp :=
  let p := get_env_bool_internal env env_name
  (match p.1 with
   | Except.ok none => default
   | Except.ok (some val) => val
   | Except.error _ => default,
   p.2)

/-- src/lib.rs get_env_bool_required: absence becomes RequiredNotPresent,
internal errors pass through. -/
def get_env_bool_required (env : Env) (env_name : String) :
    Except EnvError Bool × List EnvOp :=
  let p := get_env_bool_internal env env_name
  (match p.1 with
   | Except.ok none => Except.error EnvError.RequiredNotPresent
   | Except.ok (some val) => Except.ok val
   | Except.error e => Except.error e,
   p.2)

namespace Boolean

/-- src/boolean.rs get_env_bool_internal: matches on env::var directly,
so a present non-unicode value yields the NotUnicode error. -/
def get_env_bool_internal (env : Env) (env_name : String) :
    Except EnvError (Option Bool) × List EnvOp :=
  let p := env_var env env_name
  match p.1 with
  | Except.error VarError.notPresent => (Except.ok none, p.2)
  | Except.error VarError.notUnicode => (Except.error EnvError.NotUnicode, p.2)
  | Except.ok val =>
      (if val = "TRUE" then Except.ok (some true)
       else if val = "true" then Except.ok (some true)
       else if val = "FALSE" then Except.ok (some false)
       else if val = "false" then Except.ok (some false)
       else Except.error (EnvError.ParseError ("Couldn\x27t parse as bool: \x27" ++ val ++ "\x27")),
       p.2 ++ [EnvOp.parseAttempt val])

/-- src/boolean.rs get_env_bool_optional (textually the same as the
lib.rs version: its own lookup through .ok()). -/
def get_env_bool_optional (env : Env) (env_name : String) :
    Option Bool × List EnvOp :=
  let p := env_var env env_name
  match p.1.toOption with
  | none => (none, p.2)
  | some val =>
      (if val = "TRUE" then some true
       else if val = "true" then some true
       else if val = "FALSE" then some false
       else if val = "false" then some false
       else none,
       p.2 ++ [EnvOp.parseAttempt val])

/-- src/boolean.rs get_env_bool_or_default. -/
def get_env_bool_or_default (env : Env) (env_name : String) (default : Bool) :
    Bool × List EnvOp :=
  let p := Boolean.get_env_bool_internal env env_name
  (match p.1 with
   | Except.ok none => default
   | Except.ok (some val) => val
   | Except.error _ => default,
   p.2)

/-- src/boolean.rs get_env_bool_required. -/
def get_env_bool_required (env : Env) (env_name : String) :
    Except EnvError Bool × List EnvOp :=
  let p := Boolean.get_env_bool_internal env env_name
  (match p.1 with
   | Except.ok none => Except.error EnvError.RequiredNotPresent
   | Except.ok (some val) => Except.ok val
   | Except.error e => Except.error e,
   p.2)

end Boolean

/-! ### String accessors (identical in src/lib.rs and src/string.rs) -/

/-- get_env_string_optional of src/lib.rs and src/string.rs. -/
def get_env_string_optional (env : Env) (env_name : String) :
    Option String × List EnvOp :=
  let p := env_var env env_name
  match p.1.toOption with
  | some s => (some s, p.2)
  | none => (none, p.2)

/-- get_env_string_or_default of src/lib.rs and src/string.rs. -/
def get_env_string_or_default (env : Env) (env_name : String) (default : String) :
    String × List EnvOp :=
  let p := env_var env env_name
  match p.1.toOption with
  | some s => (s, p.2)
  | none => (default, p.2)

/-- get_env_string_required of src/lib.rs and src/string.rs. -/
def get_env_string_required (env : Env) (env_name : String) :
    Except EnvError String × List EnvOp :=
  let p := env_var env env_name
  match p.1.toOption with
  | some s => (Except.ok s, p.2)
  | none => (Except.error EnvError.RequiredNotPresent, p.2)

/-! ### Numeric accessor (identical in src/lib.rs and src/num.rs) -/

/-- get_env_num of src/lib.rs and src/num.rs, generic over the target
type T.  The Rust FromStr instance is abstracted as a parse function
returning either a value or the debug text of the parse error. -/
def get_env_num {T : Type} (parse : String → Except String T)
    (env : Env) (env_name : String) (default : T) :
    Except EnvError T × List EnvOp :=
  let p := env_var env env_name
  match p.1.toOption with
  | none => (Except.ok default, p.2)
  | some val =>
      (match parse val with
       | Except.ok v => Except.ok v
       | Except.error e => Except.error (EnvError.ParseError ("Can\x27t parse value: " ++ e)),
       p.2 ++ [EnvOp.parseAttempt val])

/-! ### src/duration.rs -/

/-- std::time::Duration restricted to what this library constructs:
Duration::from_secs with a u64 count of whole seconds. -/
structure Duration where
  secs : Nat
deriving DecidableEq

/-- Duration::from_secs. -/
def Duration.from_secs (n : Nat) : Duration := ⟨n⟩

/-- Rust str::parse::<u64>: optional leading plus sign, then one or more
ASCII digits whose value fits in 64 bits.  Rust checks overflow digit by
digit with checked arithmetic; since the accumulator is monotone this is
equivalent to a bound check on the final value. -/
def parse_u64 (s : String) : Option Nat :=
  let cs := s.data
  let ds := match cs with
    | [] => ([] : List Char)
    | c :: rest => if c = '+' then rest else c :: rest
  if ds = [] then none
  else if ds.all Char.isDigit then
    let n := ds.foldl (fun acc c => acc * 10 + (c.toNat - 48)) 0
    if n < 2 ^ 64 then some n else none
  else none

/-- src/duration.rs get_env_duration_seconds_internal: env::var collapsed
through .ok(), then u64 parse, then Duration::from_secs. -/
def get_env_duration_seconds_internal (env : Env) (env_name : String) :
    Except EnvError (Option Duration) × List EnvOp :=
  let p := env_var env env_name
  match p.1.toOption with
  | none => (Except.ok none, p.2)
  | some val =>
      (match parse_u64 val with
       | some number => Except.ok (some (Duration.from_secs number))
       | none => Except.error (EnvError.ParseError ("Couldn\x27t parse as number: \x27" ++ val ++ "\x27")),
       p.2 ++ [EnvOp.parseAttempt val])

/-- src/duration.rs get_env_duration_seconds_required. -/
def get_env_duration_seconds_required (env : Env) (env_name : String) :
    Except EnvError Duration × List EnvOp :=
  let p := get_env_duration_seconds_internal env env_name
  (match p.1 with
   | Except.ok none => Except.error EnvError.RequiredNotPresent
   | Except.ok (some val) => Except.ok val
   | Except.error e => Except.error e,
   p.2)

/-- src/duration.rs get_env_duration_seconds_optional. -/
def get_env_duration_seconds_optional (env : Env) (env_name : String) :
    Option Duration × List EnvOp :=
  let p := get_env_duration_seconds_internal env env_name
  (match p.1 with
   | Except.error _ => none
   | Except.ok none => none
   | Except.ok (some value) => some value,
   p.2)

/-- src/duration.rs get_env_duration_seconds_or_default. -/
def get_env_duration_seconds_or_default (env : Env) (env_name : String)
    (default : Duration) : Duration × List EnvOp :=
  let p := get_env_duration_seconds_internal env env_name
  (match p.1 with
   | Except.ok none => default
   | Except.ok (some val) => val
   | Except.error _ => default,
   p.2)

/-! ### src/pathbuf.rs -/

/-- The error type of PathBuf::from_str is std::convert::Infallible: it
has no inhabitants. -/
inductive PathParseErr : Type

/-- std::path::PathBuf: on the reference platform any unicode string is a
syntactically valid path, so the embedding wraps the text. -/
structure PathBuf where
  inner : String
deriving DecidableEq

/-- PathBuf::from_str, whose Err type is Infallible: always Ok. -/
def PathBuf.from_str (s : String) : Except PathParseErr PathBuf :=
  Except.ok ⟨s⟩

/-- src/pathbuf.rs get_env_pathbuf_internal: matches on env::var
directly; a present non-unicode value becomes a ParseError with a fixed
reason, and the text case goes through PathBuf::from_str. -/
def get_env_pathbuf_internal (env : Env) (env_name : String) :
    Except EnvError (Option PathBuf) × List EnvOp :=
  let p := env_var env env_name
  match p.1 with
  | Except.error VarError.notPresent => (Except.ok none, p.2)
  | Except.error VarError.notUnicode =>
      (Except.error (EnvError.ParseError "env var value not valid unicode"), p.2)
  | Except.ok val =>
      (match PathBuf.from_str val with
       | Except.ok path => Except.ok (some path)
       | Except.error _ => Except.error (EnvError.ParseError "error parsing PathBuf from value"),
       p.2 ++ [EnvOp.parseAttempt val])

/-- src/pathbuf.rs get_env_pathbuf_required. -/
def get_env_pathbuf_required (env : Env) (env_name : String) :
    Except EnvError PathBuf × List EnvOp :=
  let p := get_env_pathbuf_internal env env_name
  (match p.1 with
   | Except.ok none => Except.error EnvError.RequiredNotPresent
   | Except.ok (some val) => Except.ok val
   | Except.error e => Except.error e,
   p.2)

/-- src/pathbuf.rs get_env_pathbuf_optional. -/
def get_env_pathbuf_optional (env : Env) (env_name : String) :
    Option PathBuf × List EnvOp :=
  let p := get_env_pathbuf_internal env env_name
  (match p.1 with
   | Except.error _ => none
   | Except.ok none => none
   | Except.ok (some value) => some value,
   p.2)

/-- src/pathbuf.rs get_env_pathbuf_or_default. -/
def get_env_pathbuf_or_default (env : Env) (env_name : String)
    (default_value : PathBuf) : PathBuf × List EnvOp :=
  let p := get_env_pathbuf_internal env env_name
  (match p.1 with
   | Except.ok none => default_value
   | Except.ok (some val) => val
   | Except.error _ => default_value,
   p.2)

/-! ### src/lib.rs init_env_logger -/

/-- Name of the environment variable the Rust env logger uses. -/
def ENV_RUST_LOG : String := "RUST_LOG"

/-- Fallback log level of src/lib.rs. -/
def DEFAULT_LOG_LEVEL : String := "info"

/-- src/lib.rs init_env_logger: if env::var(RUST_LOG).ok() is none (entry
absent, or present but not unicode), write the default level.  The call
into env_logger::init does not touch the store and is outside the model.
The result is the trace of store operations performed. -/
def init_env_logger (default_if_absent : Option String) (env : Env) : List EnvOp :=
  let p := env_var env ENV_RUST_LOG
  match p.1.toOption with
  | none => p.2 ++ [EnvOp.write ENV_RUST_LOG (default_if_absent.getD DEFAULT_LOG_LEVEL)]
  | some _ => p.2

/-! ### Decimal representations, for the duration round-trip theorem -/

/-- The big-endian decimal digit characters of a natural number, as
produced by Nat.toDigitsCore once it has enough fuel. -/
def decChars (n : Nat) : List Char :=
  if h : n / 10 = 0 then [Nat.digitChar (n % 10)]
  else decChars (n / 10) ++ [Nat.digitChar (n % 10)]
termination_by n
decreasing_by
  exact Nat.div_lt_self (Nat.pos_of_ne_zero (fun h0 => h (by simp [h0]))) (by decide)

/-- Concrete single-entry environment store. -/
def envWith (name : String) (v : RawValue) : Env :=
  fun n => if n = name then some v else none

/-- Concrete empty environment store. -/
def emptyEnv : Env := fun _ => none

/-- A concrete FromStr parse function for the numeric accessor at type
u64 (modelled as Nat), used to instantiate the generic theorems.  The
error text is the one Rust prints for a non-digit character. -/
def natParse (s : String) : Except String Nat :=
  match parse_u64 s with
  | some n => Except.ok n
  | none => Except.error "invalid digit found in string"

end EasyEnv

namespace EasyEnv

/-! ### Helper lemmas: decimal representations -/

theorem digitChar_toNat (d : Nat) (h : d < 10) : (Nat.digitChar d).toNat = 48 + d := by
  interval_cases d <;> rfl

theorem digitChar_isDigit (d : Nat) (h : d < 10) : (Nat.digitChar d).isDigit = true := by
  interval_cases d <;> rfl

theorem decChars_ne_nil (n : Nat) : decChars n ≠ [] := by
  rw [decChars]
  split <;> simp

theorem decChars_all_digits (n : Nat) : (decChars n).all Char.isDigit = true := by
  induction n using Nat.strong_induction_on with
  | _ n ih =>
    rw [decChars]
    split
    · simp [digitChar_isDigit (n % 10) (Nat.mod_lt n (by decide))]
    · next h =>
      have hlt : n / 10 < n := Nat.div_lt_self (by omega) (by decide)
      simp [List.all_append, ih (n / 10) hlt,
        digitChar_isDigit (n % 10) (Nat.mod_lt n (by decide))]

theorem foldl_decChars (n : Nat) : ∀ acc : Nat,
    (decChars n).foldl (fun a c => a * 10 + (c.toNat - 48)) acc
      = acc * 10 ^ (decChars n).length + n := by
  induction n using Nat.strong_induction_on with
  | _ n ih =>
    intro acc
    rw [decChars]
    split
    · next h =>
      have hn : n % 10 = n := Nat.mod_eq_of_lt (by omega)
      rw [hn]
      simp [List.foldl, digitChar_toNat n (by omega)]
    · next h =>
      have hlt : n / 10 < n := Nat.div_lt_self (by omega) (by decide)
      rw [List.foldl_append, ih (n / 10) hlt acc]
      simp [List.foldl, digitChar_toNat (n % 10) (Nat.mod_lt n (by decide)),
        List.length_append, pow_succ]
      generalize (10 : Nat) ^ (decChars (n / 10)).length = k
      ring_nf
      omega

theorem toDigitsCore_eq (fuel : Nat) : ∀ (n : Nat) (ds : List Char), n < fuel →
    Nat.toDigitsCore 10 fuel n ds = decChars n ++ ds := by
  induction fuel with
  | zero => intro n ds h; omega
  | succ fuel ih =>
    intro n ds h
    rw [Nat.toDigitsCore]
    by_cases h10 : n / 10 = 0
    · simp only [h10, if_true]
      rw [decChars]
      simp [h10]
    · simp only [h10, if_false]
      rw [ih (n / 10) (Nat.digitChar (n % 10) :: ds) (by omega)]
      conv_rhs => rw [decChars]
      simp [h10, List.append_assoc]

theorem repr_data_eq_decChars (n : Nat) : (Nat.repr n).data = decChars n := by
  show ((Nat.toDigits 10 n).asString).data = decChars n
  rw [Nat.toDigits, toDigitsCore_eq (n + 1) n [] (Nat.lt_succ_self n)]
  simp [List.asString]

theorem decChars_head_ne_plus (n : Nat) :
    ∀ c rest, decChars n = c :: rest → ¬(c = '+') := by
  intro c rest hc hplus
  have hall := decChars_all_digits n
  rw [hc, hplus] at hall
  simp [List.all_cons] at hall

/-- Parsing the decimal representation of n back through the u64 parser
succeeds exactly when n fits in 64 bits. -/
theorem parse_u64_repr (n : Nat) :
    parse_u64 (Nat.repr n) = if n < 2 ^ 64 then some n else none := by
  unfold parse_u64
  rw [repr_data_eq_decChars]
  rcases hc : decChars n with _ | ⟨c, rest⟩
  · exact absurd hc (decChars_ne_nil n)
  · have hne : ¬(c = '+') := decChars_head_ne_plus n c rest hc
    simp only [hne, if_false]
    rw [← hc]
    simp only [decChars_ne_nil n, if_false, decChars_all_digits n, if_true]
    rw [foldl_decChars n 0]
    simp only [Nat.zero_mul, Nat.zero_add]

/-! ### Claim theorems -/

/-- Claim C1: for every variable name and every default value, the
generic numeric accessor returns Ok(default) when the variable is unset,
Ok(v) when it is set to text parsing as T with value v, and a ParseError
(not the default) when it is set to text that does not parse as T. -/
theorem C1_get_env_num_tiering {T : Type} (parse : String → Except String T)
    (env : Env) (name : String) (default : T) :
    (env name = none → (get_env_num parse env name default).1 = Except.ok default)
    ∧ (∀ s v, env name = some (RawValue.text s) → parse s = Except.ok v →
        (get_env_num parse env name default).1 = Except.ok v)
    ∧ (∀ s e, env name = some (RawValue.text s) → parse s = Except.error e →
        (get_env_num parse env name default).1 =
          Except.error (EnvError.ParseError ("Can\x27t parse value: " ++ e))) := by
  refine ⟨fun h => ?_, fun s v h hp => ?_, fun s e h hp => ?_⟩
  · simp [get_env_num, env_var, Except.toOption, h]
  · simp [get_env_num, env_var, Except.toOption, h, hp]
  · simp [get_env_num, env_var, Except.toOption, h, hp]

theorem C1_witness :
    (get_env_num natParse emptyEnv "PORT" 5).1 = Except.ok 5
    ∧ (get_env_num natParse (envWith "PORT" (RawValue.text "42")) "PORT" 5).1
        = Except.ok 42
    ∧ (get_env_num natParse (envWith "PORT" (RawValue.text "abc")) "PORT" 5).1
        = Except.error (EnvError.ParseError "Can\x27t parse value: invalid digit found in string") :=
  ⟨(C1_get_env_num_tiering natParse emptyEnv "PORT" 5).1 rfl,
   (C1_get_env_num_tiering natParse (envWith "PORT" (RawValue.text "42")) "PORT" 5).2.1
     "42" 42 rfl rfl,
   (C1_get_env_num_tiering natParse (envWith "PORT" (RawValue.text "abc")) "PORT" 5).2.2
     "abc" "invalid digit found in string" rfl rfl⟩

/-- Claim C2: for every supported type and every variable name that is
unset, the optional accessor returns no value, the with-default accessor
returns exactly the supplied default (Ok(default) for numeric), and the
required accessor returns RequiredNotPresent. -/
theorem C2_unset_tri_mode (env : Env) (name : String) (h : env name = none) :
    (get_env_bool_optional env name).1 = none
    ∧ (∀ d, (get_env_bool_or_default env name d).1 = d)
    ∧ (get_env_bool_required env name).1 = Except.error EnvError.RequiredNotPresent
    ∧ (Boolean.get_env_bool_optional env name).1 = none
    ∧ (∀ d, (Boolean.get_env_bool_or_default env name d).1 = d)
    ∧ (Boolean.get_env_bool_required env name).1 = Except.error EnvError.RequiredNotPresent
    ∧ (get_env_string_optional env name).1 = none
    ∧ (∀ d, (get_env_string_or_default env name d).1 = d)
    ∧ (get_env_string_required env name).1 = Except.error EnvError.RequiredNotPresent
    ∧ (∀ (T : Type) (parse : String → Except String T) (d : T),
        (get_env_num parse env name d).1 = Except.ok d)
    ∧ (get_env_duration_seconds_optional env name).1 = none
    ∧ (∀ d, (get_env_duration_seconds_or_default env name d).1 = d)
    ∧ (get_env_duration_seconds_required env name).1
        = Except.error EnvError.RequiredNotPresent
    ∧ (get_env_pathbuf_optional env name).1 = none
    ∧ (∀ d, (get_env_pathbuf_or_default env name d).1 = d)
    ∧ (get_env_pathbuf_required env name).1
        = Except.error EnvError.RequiredNotPresent := by
  refine ⟨?_, ?_, ?_, ?_, ?_, ?_, ?_, ?_, ?_, ?_, ?_, ?_, ?_, ?_, ?_, ?_⟩ <;> intros <;>
    simp [get_env_bool_optional, get_env_bool_or_default, get_env_bool_required,
      get_env_bool_internal, Boolean.get_env_bool_optional,
      Boolean.get_env_bool_or_default, Boolean.get_env_bool_required,
      Boolean.get_env_bool_internal, get_env_string_optional,
      get_env_string_or_default, get_env_string_required, get_env_num,
      get_env_duration_seconds_optional, get_env_duration_seconds_or_default,
      get_env_duration_seconds_required, get_env_duration_seconds_internal,
      get_env_pathbuf_optional, get_env_pathbuf_or_default,
      get_env_pathbuf_required, get_env_pathbuf_internal, env_var, Except.toOption, h]

theorem C2_witness :
    (get_env_bool_optional emptyEnv "X").1 = none
    ∧ (get_env_bool_or_default emptyEnv "X" true).1 = true
    ∧ (get_env_bool_required emptyEnv "X").1 = Except.error EnvError.RequiredNotPresent
    ∧ (get_env_string_or_default emptyEnv "X" "dft").1 = "dft"
    ∧ (get_env_num natParse emptyEnv "X" 5).1 = Except.ok 5
    ∧ (get_env_duration_seconds_or_default emptyEnv "X" (Duration.from_secs 7)).1
        = Duration.from_secs 7
    ∧ (get_env_pathbuf_required emptyEnv "X").1 = Except.error EnvError.RequiredNotPresent :=
  ⟨(C2_unset_tri_mode emptyEnv "X" rfl).1,
   (C2_unset_tri_mode emptyEnv "X" rfl).2.1 true,
   (C2_unset_tri_mode emptyEnv "X" rfl).2.2.1,
   (C2_unset_tri_mode emptyEnv "X" rfl).2.2.2.2.2.2.2.1 "dft",
   (C2_unset_tri_mode emptyEnv "X" rfl).2.2.2.2.2.2.2.2.2.1 Nat natParse 5,
   (C2_unset_tri_mode emptyEnv "X" rfl).2.2.2.2.2.2.2.2.2.2.2.1 (Duration.from_secs 7),
   (C2_unset_tri_mode emptyEnv "X" rfl).2.2.2.2.2.2.2.2.2.2.2.2.2.2.2⟩

/-- Claim C3: boolean parsing is case-sensitive; the literals true, TRUE,
FALSE, false map to the corresponding boolean in all three modes, and any
other text is a parse failure in all three modes (optional none,
with-default the default, required a ParseError). -/
theorem C3_bool_case_sensitive (env : Env) (name : String) :
    (∀ s b, ((s = "true" ∨ s = "TRUE") ∧ b = true) ∨ ((s = "false" ∨ s = "FALSE") ∧ b = false) →
      env name = some (RawValue.text s) →
        (get_env_bool_optional env name).1 = some b
        ∧ (∀ d, (get_env_bool_or_default env name d).1 = b)
        ∧ (get_env_bool_required env name).1 = Except.ok b
        ∧ (Boolean.get_env_bool_optional env name).1 = some b
        ∧ (∀ d, (Boolean.get_env_bool_or_default env name d).1 = b)
        ∧ (Boolean.get_env_bool_required env name).1 = Except.ok b)
    ∧ (∀ s, s ≠ "true" → s ≠ "TRUE" → s ≠ "false" → s ≠ "FALSE" →
        env name = some (RawValue.text s) →
          (get_env_bool_optional env name).1 = none
          ∧ (∀ d, (get_env_bool_or_default env name d).1 = d)
          ∧ (get_env_bool_required env name).1
              = Except.error (EnvError.ParseError ("Couldn\x27t parse as bool: \x27" ++ s ++ "\x27"))
          ∧ (Boolean.get_env_bool_optional env name).1 = none
          ∧ (∀ d, (Boolean.get_env_bool_or_default env name d).1 = d)
          ∧ (Boolean.get_env_bool_required env name).1
              = Except.error (EnvError.ParseError ("Couldn\x27t parse as bool: \x27" ++ s ++ "\x27"))) := by
  constructor
  · rintro s b (⟨hs | hs, hb⟩ | ⟨hs | hs, hb⟩) h <;> subst hs <;> subst hb <;>
      refine ⟨?_, fun d => ?_, ?_, ?_, fun d => ?_, ?_⟩ <;>
      simp [get_env_bool_optional, get_env_bool_or_default, get_env_bool_required,
        get_env_bool_internal, Boolean.get_env_bool_optional,
        Boolean.get_env_bool_or_default, Boolean.get_env_bool_required,
        Boolean.get_env_bool_internal, env_var, Except.toOption, h]
  · intro s h1 h2 h3 h4 h
    refine ⟨?_, fun d => ?_, ?_, ?_, fun d => ?_, ?_⟩ <;>
      simp [get_env_bool_optional, get_env_bool_or_default, get_env_bool_required,
        get_env_bool_internal, Boolean.get_env_bool_optional,
        Boolean.get_env_bool_or_default, Boolean.get_env_bool_required,
        Boolean.get_env_bool_internal, env_var, Except.toOption, h, h1, h2, h3, h4]

theorem C3_witness :
    (get_env_bool_optional (envWith "B" (RawValue.text "true")) "B").1 = some true
    ∧ (get_env_bool_required (envWith "B" (RawValue.text "TRUE")) "B").1 = Except.ok true
    ∧ (get_env_bool_or_default (envWith "B" (RawValue.text "FALSE")) "B" true).1 = false
    ∧ (get_env_bool_optional (envWith "B" (RawValue.text "True")) "B").1 = none
    ∧ (get_env_bool_or_default (envWith "B" (RawValue.text "1")) "B" true).1 = true
    ∧ (get_env_bool_required (envWith "B" (RawValue.text "0")) "B").1
        = Except.error (EnvError.ParseError "Couldn\x27t parse as bool: \x270\x27") :=
  ⟨((C3_bool_case_sensitive (envWith "B" (RawValue.text "true")) "B").1 "true" true
      (Or.inl ⟨Or.inl rfl, rfl⟩) rfl).1,
   ((C3_bool_case_sensitive (envWith "B" (RawValue.text "TRUE")) "B").1 "TRUE" true
      (Or.inl ⟨Or.inr rfl, rfl⟩) rfl).2.2.1,
   ((C3_bool_case_sensitive (envWith "B" (RawValue.text "FALSE")) "B").1 "FALSE" false
      (Or.inr ⟨Or.inr rfl, rfl⟩) rfl).2.1 true,
   ((C3_bool_case_sensitive (envWith "B" (RawValue.text "True")) "B").2 "True"
      (by decide) (by decide) (by decide) (by decide) rfl).1,
   ((C3_bool_case_sensitive (envWith "B" (RawValue.text "1")) "B").2 "1"
      (by decide) (by decide) (by decide) (by decide) rfl).2.1 true,
   ((C3_bool_case_sensitive (envWith "B" (RawValue.text "0")) "B").2 "0"
      (by decide) (by decide) (by decide) (by decide) rfl).2.2.1⟩

/-- Claim C4 counterexample: the decimal representation of 2 to the 64,
a non-negative whole number, is rejected by the duration accessor with a
ParseError instead of yielding a duration of that many seconds, because
the underlying parse targets u64. -/
theorem C4_counterexample :
    Nat.repr (2 ^ 64) = "18446744073709551616"
    ∧ (get_env_duration_seconds_internal
        (envWith "TIMEOUT" (RawValue.text "18446744073709551616")) "TIMEOUT").1
      = Except.error (EnvError.ParseError
          "Couldn\x27t parse as number: \x2718446744073709551616\x27")
    ∧ (get_env_duration_seconds_internal
        (envWith "TIMEOUT" (RawValue.text "18446744073709551616")) "TIMEOUT").1
      ≠ Except.ok (some (Duration.from_secs (2 ^ 64))) := by
  refine ⟨by decide, rfl, ?_⟩
  intro hcontra
  rw [show (get_env_duration_seconds_internal
        (envWith "TIMEOUT" (RawValue.text "18446744073709551616")) "TIMEOUT").1
      = Except.error (EnvError.ParseError
          "Couldn\x27t parse as number: \x2718446744073709551616\x27") from rfl] at hcontra
  exact Except.noConfusion hcontra

/-- Claim C4, amended: the duration accessor parses the raw text as a
non-negative whole number of seconds that fits in 64 bits.  For every n
below 2 to the 64, the decimal representation of n yields a duration of n
seconds; the decimal representation of any n at or above 2 to the 64 is a
parse failure; and the texts -1, 1.5, abc and the empty string are parse
failures. -/
theorem C4_duration_parse (env : Env) (name : String) :
    (∀ n : Nat, n < 2 ^ 64 → env name = some (RawValue.text (Nat.repr n)) →
      (get_env_duration_seconds_internal env name).1
        = Except.ok (some (Duration.from_secs n)))
    ∧ (∀ n : Nat, 2 ^ 64 ≤ n → env name = some (RawValue.text (Nat.repr n)) →
        (get_env_duration_seconds_internal env name).1
          = Except.error (EnvError.ParseError
              ("Couldn\x27t parse as number: \x27" ++ Nat.repr n ++ "\x27")))
    ∧ (∀ s, (s = "-1" ∨ s = "1.5" ∨ s = "abc" ∨ s = "") →
        env name = some (RawValue.text s) →
          (get_env_duration_seconds_internal env name).1
            = Except.error (EnvError.ParseError
                ("Couldn\x27t parse as number: \x27" ++ s ++ "\x27"))) := by
  refine ⟨fun n hn h => ?_, fun n hn h => ?_, fun s hs h => ?_⟩
  · have hn2 : n < 18446744073709551616 := by omega
    simp [get_env_duration_seconds_internal, env_var, Except.toOption, h,
      parse_u64_repr, hn2]
  · have hn2 : ¬(n < 18446744073709551616) := by omega
    simp [get_env_duration_seconds_internal, env_var, Except.toOption, h,
      parse_u64_repr, hn2]
  · rcases hs with hs | hs | hs | hs <;> subst hs <;>
      simp [get_env_duration_seconds_internal, env_var, Except.toOption, h,
        show parse_u64 "-1" = none from rfl, show parse_u64 "1.5" = none from rfl,
        show parse_u64 "abc" = none from rfl, show parse_u64 "" = none from rfl]

theorem C4_witness :
    (get_env_duration_seconds_internal
        (envWith "D" (RawValue.text (Nat.repr 120))) "D").1
      = Except.ok (some (Duration.from_secs 120))
    ∧ (get_env_duration_seconds_internal
        (envWith "D" (RawValue.text (Nat.repr 0))) "D").1
      = Except.ok (some (Duration.from_secs 0))
    ∧ (get_env_duration_seconds_internal (envWith "D" (RawValue.text "abc")) "D").1
      = Except.error (EnvError.ParseError "Couldn\x27t parse as number: \x27abc\x27") :=
  ⟨(C4_duration_parse (envWith "D" (RawValue.text (Nat.repr 120))) "D").1 120
      (by decide) rfl,
   (C4_duration_parse (envWith "D" (RawValue.text (Nat.repr 0))) "D").1 0
      (by decide) rfl,
   (C4_duration_parse (envWith "D" (RawValue.text "abc")) "D").2.2 "abc"
      (Or.inr (Or.inr (Or.inl rfl))) rfl⟩

/-- Claim C5: when the variable is present but its raw value is not valid
unicode text, the boolean required accessor of src/boolean.rs returns the
NotUnicode error variant, not RequiredNotPresent and not ParseError. -/
theorem C5_bool_required_not_unicode (env : Env) (name : String)
    (h : env name = some RawValue.nonUnicode) :
    (Boolean.get_env_bool_required env name).1 = Except.error EnvError.NotUnicode
    ∧ (Boolean.get_env_bool_required env name).1
        ≠ Except.error EnvError.RequiredNotPresent
    ∧ (∀ r, (Boolean.get_env_bool_required env name).1
        ≠ Except.error (EnvError.ParseError r)) := by
  have h1 : (Boolean.get_env_bool_required env name).1
      = Except.error EnvError.NotUnicode := by
    simp [Boolean.get_env_bool_required, Boolean.get_env_bool_internal, env_var, h]
  refine ⟨h1, ?_, fun r => ?_⟩ <;> rw [h1] <;> simp

theorem C5_witness :
    (Boolean.get_env_bool_required (envWith "B" RawValue.nonUnicode) "B").1
      = Except.error EnvError.NotUnicode :=
  (C5_bool_required_not_unicode (envWith "B" RawValue.nonUnicode) "B" rfl).1

/-- Claim C6 counterexample: with RUST_LOG present in the store but
holding a non-unicode raw value, init_env_logger does overwrite the
entry, because env::var(..).ok() collapses the non-unicode case into
absence.  The claim quantifies over every already-set entry, so this
concrete store refutes it. -/
theorem C6_counterexample :
    (envWith ENV_RUST_LOG RawValue.nonUnicode) ENV_RUST_LOG = some RawValue.nonUnicode
    ∧ applyOps (envWith ENV_RUST_LOG RawValue.nonUnicode)
        (init_env_logger (some "debug") (envWith ENV_RUST_LOG RawValue.nonUnicode))
        ENV_RUST_LOG
      = some (RawValue.text "debug")
    ∧ applyOps (envWith ENV_RUST_LOG RawValue.nonUnicode)
        (init_env_logger (some "debug") (envWith ENV_RUST_LOG RawValue.nonUnicode))
        ENV_RUST_LOG
      ≠ (envWith ENV_RUST_LOG RawValue.nonUnicode) ENV_RUST_LOG := by
  refine ⟨rfl, rfl, ?_⟩
  intro hcontra
  rw [show applyOps (envWith ENV_RUST_LOG RawValue.nonUnicode)
        (init_env_logger (some "debug") (envWith ENV_RUST_LOG RawValue.nonUnicode))
        ENV_RUST_LOG = some (RawValue.text "debug") from rfl,
      show (envWith ENV_RUST_LOG RawValue.nonUnicode) ENV_RUST_LOG
        = some RawValue.nonUnicode from rfl] at hcontra
  simp at hcontra

/-- Claim C6, amended: for every value of the default_if_absent argument,
if RUST_LOG is set to a valid unicode text value when init_env_logger is
called, the store is unchanged by the call, so in particular the RUST_LOG
entry keeps its existing value. -/
theorem C6_no_overwrite (d : Option String) (env : Env) (s : String)
    (h : env ENV_RUST_LOG = some (RawValue.text s)) :
    applyOps env (init_env_logger d env) = env
    ∧ applyOps env (init_env_logger d env) ENV_RUST_LOG = some (RawValue.text s) := by
  have h1 : applyOps env (init_env_logger d env) = env := by
    simp [init_env_logger, env_var, Except.toOption, h, applyOps]
  exact ⟨h1, by rw [h1, h]⟩

theorem C6_witness :
    applyOps (envWith ENV_RUST_LOG (RawValue.text "warn"))
        (init_env_logger (some "debug") (envWith ENV_RUST_LOG (RawValue.text "warn")))
      = envWith ENV_RUST_LOG (RawValue.text "warn")
    ∧ applyOps (envWith ENV_RUST_LOG (RawValue.text "warn"))
        (init_env_logger (some "debug") (envWith ENV_RUST_LOG (RawValue.text "warn")))
        ENV_RUST_LOG
      = some (RawValue.text "warn") :=
  C6_no_overwrite (some "debug") (envWith ENV_RUST_LOG (RawValue.text "warn")) "warn" rfl

/-- Claim C7: path parsing never rejects any text.  For every variable
holding valid unicode text the three path accessors succeed with the
parsed path (the with-default mode ignores its default), the parse
failure branch is unreachable because the from_str error type is
uninhabited, and the only failure modes are an absent variable and a
non-unicode value. -/
theorem C7_path_accepts_all_text (env : Env) (name : String) :
    (∀ s, env name = some (RawValue.text s) →
      (get_env_pathbuf_optional env name).1 = some (PathBuf.mk s)
      ∧ (∀ d, (get_env_pathbuf_or_default env name d).1 = PathBuf.mk s)
      ∧ (get_env_pathbuf_required env name).1 = Except.ok (PathBuf.mk s))
    ∧ (∀ s, PathBuf.from_str s = Except.ok (PathBuf.mk s))
    ∧ (∀ _e : PathParseErr, False)
    ∧ (env name = none →
        (get_env_pathbuf_required env name).1 = Except.error EnvError.RequiredNotPresent)
    ∧ (env name = some RawValue.nonUnicode →
        (get_env_pathbuf_required env name).1
          = Except.error (EnvError.ParseError "env var value not valid unicode")) := by
  have hempty : ∀ _e : PathParseErr, False := fun x => nomatch x
  refine ⟨fun s h => ⟨?_, fun d => ?_, ?_⟩, fun s => rfl, hempty,
      fun h => ?_, fun h => ?_⟩ <;>
    simp [get_env_pathbuf_optional, get_env_pathbuf_or_default,
      get_env_pathbuf_required, get_env_pathbuf_internal, PathBuf.from_str,
      env_var, h]

theorem C7_witness :
    (get_env_pathbuf_optional (envWith "P" (RawValue.text "/tmp/x")) "P").1
      = some (PathBuf.mk "/tmp/x")
    ∧ (get_env_pathbuf_or_default (envWith "P" (RawValue.text "/tmp/x")) "P"
        (PathBuf.mk "/dft")).1 = PathBuf.mk "/tmp/x"
    ∧ (get_env_pathbuf_required (envWith "P" (RawValue.text "/tmp/x")) "P").1
      = Except.ok (PathBuf.mk "/tmp/x")
    ∧ (get_env_pathbuf_required (envWith "P" RawValue.nonUnicode) "P").1
      = Except.error (EnvError.ParseError "env var value not valid unicode") :=
  ⟨((C7_path_accepts_all_text (envWith "P" (RawValue.text "/tmp/x")) "P").1
      "/tmp/x" rfl).1,
   ((C7_path_accepts_all_text (envWith "P" (RawValue.text "/tmp/x")) "P").1
      "/tmp/x" rfl).2.1 (PathBuf.mk "/dft"),
   ((C7_path_accepts_all_text (envWith "P" (RawValue.text "/tmp/x")) "P").1
      "/tmp/x" rfl).2.2,
   (C7_path_accepts_all_text (envWith "P" RawValue.nonUnicode) "P").2.2.2.2 rfl⟩

/-- Claim C8: string accessor round trip.  For every variable set to an
arbitrary non-empty text value v, the optional accessor returns some v,
the with-default accessor returns v ignoring its default, and the
required accessor returns Ok v, with no transformation of the text. -/
theorem C8_string_round_trip (env : Env) (name v : String) (_hne : v ≠ "")
    (h : env name = some (RawValue.text v)) :
    (get_env_string_optional env name).1 = some v
    ∧ (∀ d, (get_env_string_or_default env name d).1 = v)
    ∧ (get_env_string_required env name).1 = Except.ok v := by
  refine ⟨?_, fun d => ?_, ?_⟩ <;>
    simp [get_env_string_optional, get_env_string_or_default,
      get_env_string_required, env_var, Except.toOption, h]

theorem C8_witness :
    (get_env_string_optional (envWith "S" (RawValue.text "hello world")) "S").1
      = some "hello world"
    ∧ (get_env_string_or_default (envWith "S" (RawValue.text "hello world")) "S"
        "dft").1 = "hello world"
    ∧ (get_env_string_required (envWith "S" (RawValue.text "hello world")) "S").1
      = Except.ok "hello world" :=
  ⟨(C8_string_round_trip (envWith "S" (RawValue.text "hello world")) "S"
      "hello world" (by decide) rfl).1,
   (C8_string_round_trip (envWith "S" (RawValue.text "hello world")) "S"
      "hello world" (by decide) rfl).2.1 "dft",
   (C8_string_round_trip (envWith "S" (RawValue.text "hello world")) "S"
      "hello world" (by decide) rfl).2.2⟩

/-- A trace consisting of a single lookup is pure. -/
theorem pure_lookup_trace (env : Env) (name : String) :
    pureAccessorTrace env [EnvOp.lookup name] :=
  ⟨rfl, rfl, Nat.zero_le 1, rfl⟩

/-- A trace consisting of one lookup followed by one parse attempt is
pure. -/
theorem pure_lookup_parse_trace (env : Env) (name raw : String) :
    pureAccessorTrace env [EnvOp.lookup name, EnvOp.parseAttempt raw] :=
  ⟨rfl, rfl, Nat.le_refl 1, rfl⟩

/-- Claim C9: every accessor, in every mode and for every type, performs
exactly one store lookup and at most one parse attempt, performs no
write, and leaves the environment store unchanged; the accessors never
write, so the logger-initialization helper is the only writer. -/
theorem C9_accessors_pure (env : Env) (name : String) :
    pureAccessorTrace env (get_env_bool_optional env name).2
    ∧ pureAccessorTrace env (get_env_bool_internal env name).2
    ∧ (∀ d, pureAccessorTrace env (get_env_bool_or_default env name d).2)
    ∧ pureAccessorTrace env (get_env_bool_required env name).2
    ∧ pureAccessorTrace env (Boolean.get_env_bool_optional env name).2
    ∧ pureAccessorTrace env (Boolean.get_env_bool_internal env name).2
    ∧ (∀ d, pureAccessorTrace env (Boolean.get_env_bool_or_default env name d).2)
    ∧ pureAccessorTrace env (Boolean.get_env_bool_required env name).2
    ∧ pureAccessorTrace env (get_env_string_optional env name).2
    ∧ (∀ d, pureAccessorTrace env (get_env_string_or_default env name d).2)
    ∧ pureAccessorTrace env (get_env_string_required env name).2
    ∧ (∀ (T : Type) (parse : String → Except String T) (d : T),
        pureAccessorTrace env (get_env_num parse env name d).2)
    ∧ pureAccessorTrace env (get_env_duration_seconds_internal env name).2
    ∧ pureAccessorTrace env (get_env_duration_seconds_optional env name).2
    ∧ (∀ d, pureAccessorTrace env (get_env_duration_seconds_or_default env name d).2)
    ∧ pureAccessorTrace env (get_env_duration_seconds_required env name).2
    ∧ pureAccessorTrace env (get_env_pathbuf_internal env name).2
    ∧ pureAccessorTrace env (get_env_pathbuf_optional env name).2
    ∧ (∀ d, pureAccessorTrace env (get_env_pathbuf_or_default env name d).2)
    ∧ pureAccessorTrace env (get_env_pathbuf_required env name).2 := by
  refine ⟨?_, ?_, ?_, ?_, ?_, ?_, ?_, ?_, ?_, ?_, ?_, ?_, ?_, ?_, ?_, ?_, ?_, ?_, ?_, ?_⟩ <;>
    intros <;>
    rcases h : env name with _ | (s | _) <;>
    simp only [get_env_bool_optional, get_env_bool_internal,
      get_env_bool_or_default, get_env_bool_required,
      Boolean.get_env_bool_optional, Boolean.get_env_bool_internal,
      Boolean.get_env_bool_or_default, Boolean.get_env_bool_required,
      get_env_string_optional, get_env_string_or_default,
      get_env_string_required, get_env_num,
      get_env_duration_seconds_internal, get_env_duration_seconds_optional,
      get_env_duration_seconds_or_default, get_env_duration_seconds_required,
      get_env_pathbuf_internal, get_env_pathbuf_optional,
      get_env_pathbuf_or_default, get_env_pathbuf_required,
      env_var, Except.toOption, h, List.singleton_append, List.cons_append,
      List.nil_append] <;>
    first
      | exact pure_lookup_trace env name
      | exact pure_lookup_parse_trace env name _

/-- Claim C10: the boolean optional accessor of src/lib.rs agrees with
the boolean required accessor of src/lib.rs on every store: optional
returns some b exactly when required returns Ok b, and optional returns
none exactly when required returns an error. -/
theorem C10_bool_optional_eq_required (env : Env) (name : String) :
    (∀ b, (get_env_bool_optional env name).1 = some b
      ↔ (get_env_bool_required env name).1 = Except.ok b)
    ∧ ((get_env_bool_optional env name).1 = none
      ↔ ∃ e, (get_env_bool_required env name).1 = Except.error e) := by
  rcases h : env name with _ | (s | _)
  · constructor
    · intro b
      simp [get_env_bool_optional, get_env_bool_required, get_env_bool_internal,
        env_var, Except.toOption, h]
    · simp [get_env_bool_optional, get_env_bool_required, get_env_bool_internal,
        env_var, Except.toOption, h]
  · constructor
    · intro b
      by_cases h1 : s = "TRUE" <;> by_cases h2 : s = "true" <;>
        by_cases h3 : s = "FALSE" <;> by_cases h4 : s = "false" <;>
        simp [get_env_bool_optional, get_env_bool_required, get_env_bool_internal,
          env_var, Except.toOption, h, h1, h2, h3, h4]
    · by_cases h1 : s = "TRUE" <;> by_cases h2 : s = "true" <;>
        by_cases h3 : s = "FALSE" <;> by_cases h4 : s = "false" <;>
        simp [get_env_bool_optional, get_env_bool_required, get_env_bool_internal,
          env_var, Except.toOption, h, h1, h2, h3, h4]
  · constructor
    · intro b
      simp [get_env_bool_optional, get_env_bool_required, get_env_bool_internal,
        env_var, Except.toOption, h]
    · simp [get_env_bool_optional, get_env_bool_required, get_env_bool_internal,
        env_var, Except.toOption, h]

end EasyEnv
